import Mathlib

/-!
Verification of the k8shorizmetrics evaluation pipeline.

This file gives a shallow embedding of the replica-count evaluation code of
the `jthomperoo/k8shorizmetrics` Go library and proves properties of it.

Modelling conventions:
* Go `int32`/`int64` values are modelled as `Int`.  The claims under study
  concern values far away from the 2^31 / 2^63 boundaries, so machine
  overflow (including Go's `int32(...)` conversions) is not modelled.
* Go `float64` arithmetic on usage ratios is modelled as exact rational
  (`ℚ`) arithmetic.  Every float that the code manipulates is a quotient of
  two integer-valued quantities, so the rational model is exact except for
  double rounding, which is irrelevant at the magnitudes of the claims.
  Division by zero in `ℚ` yields `0`.
* Go maps (`podmetrics.MetricsInfo`, the requests map, `sets.String`) are
  modelled as association lists / lists of keys.  Go map iteration order is
  unspecified; all iterations folded here are order-insensitive sums or
  key-distinct insertions.
* A Go runtime panic (nil dereference, integer division by zero) is a
  distinguished outcome, kept separate from a returned `error`.
-/

namespace K8sHorizMetrics

/-- Metric models `podmetrics.Metric` (metrics/podmetrics): a single pod's
gathered metric value (a milli-value integer). -/
structure Metric where
  Value : Int
deriving DecidableEq, Repr

/-- MetricsInfo models `podmetrics.MetricsInfo = map[string]podmetrics.Metric`
as an association list keyed by pod name. -/
abbrev MetricsInfo := List (String × Metric)

/-- Association-list read of the requests map `requests[podName]` with its
`hasRequest` flag: `none` means the key is absent. -/
def lookupRequest (requests : List (String × Int)) (k : String) : Option Int :=
  (requests.find? (fun p => p.1 = k)).map (fun p => p.2)

/-- Association-list read of a `MetricsInfo` map. -/
def lookupMetric (metrics : MetricsInfo) (k : String) : Option Metric :=
  (metrics.find? (fun p => p.1 = k)).map (fun p => p.2)

/-- Go map assignment `metrics[podName] = m`: overwrite the entry if the key
is present, otherwise add a new entry. -/
def insertMetric : MetricsInfo → String → Metric → MetricsInfo
  | [], podName, m => [(podName, m)]
  | q :: rest, podName, m =>
    if q.1 = podName then (podName, m) :: rest else q :: insertMetric rest podName m

/-- A `for podName := range pods { metrics[podName] = Metric{Value: f podName} }`
loop over a set of pod names. -/
def setPods (metrics : MetricsInfo) (pods : List String) (f : String → Int) : MetricsInfo :=
  pods.foldl (fun acc podName => insertMetric acc podName ⟨f podName⟩) metrics

/-- Sum of the `Value` fields of a `MetricsInfo`, as accumulated by the
`metricsTotal += metric.Value` loops in `metricsclient`. -/
def metricsTotal (metrics : MetricsInfo) : Int :=
  (metrics.map (fun p => p.2.Value)).sum

/-- Result of `metricsclient.GetResourceUtilizationRatio`, which returns
`(utilizationRatio float64, currentUtilization int32, rawAverageValue int64, err error)`. -/
inductive UtilResult where
  | ok (ratio1 : ℚ) (currentUtilization : Int) (rawAverageValue : Int)
  | err (msg : String)
deriving DecidableEq, Repr

/-- The accumulation loop of `GetResourceUtilizationRatio`
(src/unnamed/part_000, metricsclient): for each pod in `metrics` that also
has an entry in `requests`, accumulate `metricsTotal`, `requestsTotal` and
`numEntries`; pods missing from `requests` are skipped. -/
def utilLoop (requests : List (String × Int)) : MetricsInfo → Int × Int × Int
  | [] => (0, 0, 0)
  | (podName, metric) :: rest =>
    let acc := utilLoop requests rest
    match lookupRequest requests podName with
    | none => acc
    | some request => (acc.1 + metric.Value, acc.2.1 + request, acc.2.2 + 1)

/-- GetResourceUtilizationRatio (metricsclient): ratio of desired to actual
utilization over the pods common to `metrics` and `requests`.  Go's `/` on
`int64`/`int32` truncates toward zero, hence `Int.tdiv`. -/
def GetResourceUtilizationRatio (metrics : MetricsInfo) (requests : List (String × Int))
    (targetUtilization : Int) : UtilResult :=
  let acc := utilLoop requests metrics
  if acc.2.1 = 0 then .err "no metrics returned matched known pods"
  else
    let currentUtilization := Int.tdiv (acc.1 * 100) acc.2.1
    .ok ((currentUtilization : ℚ) / (targetUtilization : ℚ)) currentUtilization
      (Int.tdiv acc.1 acc.2.2)

/-- GetMetricUtilizationRatio (metricsclient): returns
`(utilizationRatio float64, currentUtilization int64)`.  The division
`metricsTotal / int64(len(metrics))` is written with no guard in the source;
on an empty map the zero divisor is a Go runtime panic, modelled as `none`.
The function has no error return value. -/
def GetMetricUtilizationRatio (metrics : MetricsInfo) (targetUtilization : Int) :
    Option (ℚ × Int) :=
  if metrics.length = 0 then none
  else
    let currentUtilization := Int.tdiv (metricsTotal metrics) metrics.length
    some ((currentUtilization : ℚ) / (targetUtilization : ℚ), currentUtilization)

/-- ReplicaCalculator (internal/replicas): carries the tolerance used to
decide whether a computed change is too small to act on. -/
structure ReplicaCalculator where
  Tolerance : ℚ

/-- GetUsageRatioReplicaCount (internal/replicas/replicas.go): replica count
from the number of replicas, ready pods, and a metric's usage ratio. -/
def GetUsageRatioReplicaCount (r : ReplicaCalculator) (currentReplicas : Int)
    (ratio1 : ℚ) (readyPodCount : Int) : Int :=
  if currentReplicas ≠ 0 then
    if |1 - ratio1| ≤ r.Tolerance then
      currentReplicas
    else
      ⌈ ratio1 * (readyPodCount : ℚ)⌉
  else
    ⌈ ratio1⌉

/-- GetPlainMetricReplicaCount (internal/replicas/replicas.go): replica count
from per-pod metrics and a target utilization, with the fast path (no missing
or rebalanced ignored pods) and the slow path that synthesizes substitute
values.  `none` models the panic propagated from
`GetMetricUtilizationRatio` on an empty metrics map. -/
def GetPlainMetricReplicaCount (r : ReplicaCalculator) (metrics : MetricsInfo)
    (currentReplicas : Int) (targetUtilization : Int) (readyPodCount : Int)
    (missingPods ignoredPods : List String) : Option Int :=
  match GetMetricUtilizationRatio metrics targetUtilization with
  | none => none
  | some (ratio1, _) =>
    if ¬ (0 < ignoredPods.length ∧ 1 < ratio1) ∧ missingPods.length = 0 then
      if |1 - ratio1| ≤ r.Tolerance then
        some currentReplicas
      else
        some ⌈ ratio1 * (readyPodCount : ℚ)⌉
    else
      let metrics1 :=
        if 0 < missingPods.length then
          if ratio1 < 1 then
            setPods metrics missingPods (fun _ => targetUtilization)
          else
            setPods metrics missingPods (fun _ => 0)
        else metrics
      let metrics2 :=
        if 0 < ignoredPods.length ∧ 1 < ratio1 then
          setPods metrics1 ignoredPods (fun _ => 0)
        else metrics1
      match GetMetricUtilizationRatio metrics2 targetUtilization with
      | none => none
      | some (newRatio1, _) =>
        if |1 - newRatio1| ≤ r.Tolerance ∨ (ratio1 < 1 ∧ 1 < newRatio1) ∨
            (1 < ratio1 ∧ newRatio1 < 1) then
          some currentReplicas
        else
          some ⌈newRatio1 * (metrics2.length : ℚ)⌉

/-- MetricValue models `metrics/value.MetricValue`: the gathered current
value of an object/external metric.  The Go fields are `*int64` pointers
(milli-values); `none` models a nil pointer. -/
structure MetricValue where
  Value : Option Int := none
  AverageValue : Option Int := none
deriving DecidableEq, Repr

/-- MetricTarget models the target part of an `autoscalingv2.MetricSpec`
entry: `Type` (a string: "Value" / "AverageValue" / "Utilization"), and the
three optional targets.  `Value`/`AverageValue` carry `MilliValue()` of the
quantity; `AverageUtilization` is the `*int32` percentage.  `none` models a
nil pointer. -/
structure MetricTarget where
  TargetType : String := ""
  Value : Option Int := none
  AverageValue : Option Int := none
  AverageUtilization : Option Int := none
deriving DecidableEq, Repr

/-- SpecEntry models one per-type section of `autoscalingv2.MetricSpec`
(e.g. `Spec.Resource`, `Spec.Object`): only the `Target` is read by the
evaluators.  Nil spec sections (a Go nil-pointer panic on access) are not
modelled: no claim exercises them. -/
structure SpecEntry where
  Target : MetricTarget := {}
deriving DecidableEq, Repr

/-- MetricSpec models `autoscalingv2.MetricSpec`: the `Type` discriminator
string ("Object" / "Pods" / "Resource" / "External") and the per-type
sections. -/
structure MetricSpec where
  MetricType : String := ""
  Object : SpecEntry := {}
  Pods : SpecEntry := {}
  Resource : SpecEntry := {}
  External : SpecEntry := {}
deriving DecidableEq, Repr

/-- ResourceMetric models `metrics/resource.Metric`: the gathered data for a
resource metric.  `TotalPods` and `Timestamp` are never read by the
evaluators and are omitted. -/
structure ResourceMetric where
  PodMetricsInfo : MetricsInfo := []
  Requests : List (String × Int) := []
  ReadyPodCount : Int := 0
  IgnoredPods : List String := []
  MissingPods : List String := []
deriving DecidableEq, Repr

/-- PodsMetric models `metrics/pods.Metric`. -/
structure PodsMetric where
  PodMetricsInfo : MetricsInfo := []
  ReadyPodCount : Int := 0
  IgnoredPods : List String := []
  MissingPods : List String := []
deriving DecidableEq, Repr

/-- ObjectMetric models `metrics/object.Metric`: the gathered current value
and the `*int64` ready-pod count. -/
structure ObjectMetric where
  Current : MetricValue := {}
  ReadyPodCount : Option Int := none
deriving DecidableEq, Repr

/-- ExternalMetric models `metrics/external.Metric`. -/
structure ExternalMetric where
  Current : MetricValue := {}
  ReadyPodCount : Option Int := none
deriving DecidableEq, Repr

/-- GatheredMetric models `metrics.Metric`, the bundle handed to the
evaluators.  The Go per-type fields are pointers left nil when not gathered;
the evaluators dereference them unguarded, and those nil panics are not
modelled: no claim exercises them. -/
structure GatheredMetric where
  Spec : MetricSpec := {}
  Resource : ResourceMetric := {}
  Pods : PodsMetric := {}
  Object : ObjectMetric := {}
  External : ExternalMetric := {}
deriving DecidableEq, Repr

/-- Outcome of a per-metric evaluation: a replica count, a returned `error`,
or a Go runtime panic (`crash`: nil dereference or integer division by
zero). -/
inductive EvalResult where
  | ok (replicas : Int)
  | err (msg : String)
  | crash
deriving DecidableEq, Repr

/-- The missing-pod synthesis loop of the resource average-utilization path
(internal/resource/evaluate.go): on a scale-down (`usageRatio < 1.0`) each
missing pod is given its full request `requests[podName]` (Go map read: `0`
when absent); on a scale-up (`usageRatio > 1.0`) it is given `0`; at exactly
`1.0` neither branch of the `if/else if` runs. -/
def synthesizeMissingResource (metrics : MetricsInfo) (requests : List (String × Int))
    (missingPods : List String) (ratio1 : ℚ) : MetricsInfo :=
  if ratio1 < 1 then
    setPods metrics missingPods (fun podName => (lookupRequest requests podName).getD 0)
  else if 1 < ratio1 then
    setPods metrics missingPods (fun _ => 0)
  else metrics

/-- The average-utilization branch of resource `Evaluate`
(internal/resource/evaluate.go): compute the utilization ratio; on the fast
path apply the tolerance band or scale by `readyPodCount`; on the slow path
synthesize values for missing pods and zero rebalanced ignored pods, rerun
the ratio, and guard against too-small changes and direction flips. -/
def resourceAverageUtilization (currentReplicas : Int) (res : ResourceMetric)
    (targetUtilization : Int) (tolerance : ℚ) : EvalResult :=
  match GetResourceUtilizationRatio res.PodMetricsInfo res.Requests targetUtilization with
  | .err e => .err e
  | .ok ratio1 _ _ =>
    if ¬ (0 < res.IgnoredPods.length ∧ 1 < ratio1) ∧ res.MissingPods.length = 0 then
      if |1 - ratio1| ≤ tolerance then
        .ok currentReplicas
      else
        .ok ⌈ ratio1 * (res.ReadyPodCount : ℚ)⌉
    else
      let metrics1 :=
        if 0 < res.MissingPods.length then
          synthesizeMissingResource res.PodMetricsInfo res.Requests res.MissingPods ratio1
        else res.PodMetricsInfo
      let metrics2 :=
        if 0 < res.IgnoredPods.length ∧ 1 < ratio1 then
          setPods metrics1 res.IgnoredPods (fun _ => 0)
        else metrics1
      match GetResourceUtilizationRatio metrics2 res.Requests targetUtilization with
      | .err e => .err e
      | .ok newRatio1 _ _ =>
        if |1 - newRatio1| ≤ tolerance ∨ (ratio1 < 1 ∧ 1 < newRatio1) ∨
            (1 < ratio1 ∧ newRatio1 < 1) then
          .ok currentReplicas
        else
          .ok ⌈newRatio1 * (metrics2.length : ℚ)⌉

/-- Resource `Evaluate` (internal/resource/evaluate.go): the average-value
target delegates to `GetPlainMetricReplicaCount` (using the calculator's own
tolerance); the average-utilization target runs
`resourceAverageUtilization` with the tolerance argument; with neither
target set it returns the invalid-metric-source error. -/
def ResourceEvaluate (calculater : ReplicaCalculator) (currentReplicas : Int)
    (gatheredMetric : GatheredMetric) (tolerance : ℚ) : EvalResult :=
  match gatheredMetric.Spec.Resource.Target.AverageValue with
  | some averageValue =>
    match GetPlainMetricReplicaCount calculater gatheredMetric.Resource.PodMetricsInfo
        currentReplicas averageValue gatheredMetric.Resource.ReadyPodCount
        gatheredMetric.Resource.MissingPods gatheredMetric.Resource.IgnoredPods with
    | none => .crash
    | some n => .ok n
  | none =>
    match gatheredMetric.Spec.Resource.Target.AverageUtilization with
    | some targetUtilization =>
      resourceAverageUtilization currentReplicas gatheredMetric.Resource
        targetUtilization tolerance
    | none =>
      .err "invalid resource metric source: neither a utilization target nor a value target was set"

/-- Pods `Evaluate` (internal/pods/evaluate.go): returns a bare `int32`; it
has no error return.  It dereferences `Spec.Pods.Target.AverageValue`
unconditionally, so a spec without an average-value target is a nil-pointer
panic (`none`), not an error. -/
def PodsEvaluate (calculater : ReplicaCalculator) (currentReplicas : Int)
    (gatheredMetric : GatheredMetric) : Option Int :=
  match gatheredMetric.Spec.Pods.Target.AverageValue with
  | none => none
  | some averageValue =>
    GetPlainMetricReplicaCount calculater gatheredMetric.Pods.PodMetricsInfo
      currentReplicas averageValue gatheredMetric.Pods.ReadyPodCount
      gatheredMetric.Pods.MissingPods gatheredMetric.Pods.IgnoredPods

/-- Object `Evaluate` (internal/object, appended in
src/internal/object/gather_test.go): dispatches on `Target.Type`.  A
`Value` target computes `usageRatio = currentValue / targetValue` and
delegates to `GetUsageRatioReplicaCount` with the object's ready-pod count;
an `AverageValue` target computes
`usageRatio = currentAverage / (targetAverage * currentReplicas)` and keeps
`currentReplicas` inside the tolerance band, otherwise
`ceil(currentAverage / targetAverage)`; any other target type is the
invalid-metric-source error. -/
def ObjectEvaluate (calculater : ReplicaCalculator) (currentReplicas : Int)
    (gatheredMetric : GatheredMetric) (tolerance : ℚ) : EvalResult :=
  if gatheredMetric.Spec.Object.Target.TargetType = "Value" then
    match gatheredMetric.Object.Current.Value, gatheredMetric.Spec.Object.Target.Value,
        gatheredMetric.Object.ReadyPodCount with
    | some utilization, some targetValue, some readyPodCount =>
      .ok (GetUsageRatioReplicaCount calculater currentReplicas
        ((utilization : ℚ) / (targetValue : ℚ)) readyPodCount)
    | _, _, _ => .crash
  else if gatheredMetric.Spec.Object.Target.TargetType = "AverageValue" then
    match gatheredMetric.Object.Current.AverageValue,
        gatheredMetric.Spec.Object.Target.AverageValue with
    | some utilization, some targetAverageValue =>
      if ¬ (|1 - (utilization : ℚ) / ((targetAverageValue : ℚ) * (currentReplicas : ℚ))| ≤ tolerance) then
        .ok ⌈(utilization : ℚ) / (targetAverageValue : ℚ)⌉
      else
        .ok currentReplicas
    | _, _ => .crash
  else
    .err "invalid object metric source: neither a value target nor an average value target was set"

/-- External `Evaluate` (internal/external/evaluate.go): an average-value
target applies the per-pod tolerance band; a value target computes
`usageRatio = currentValue / targetValue` and delegates to
`GetUsageRatioReplicaCount`; with neither set it returns the
invalid-metric-source error. -/
def ExternalEvaluate (calculater : ReplicaCalculator) (currentReplicas : Int)
    (gatheredMetric : GatheredMetric) (tolerance : ℚ) : EvalResult :=
  match gatheredMetric.Spec.External.Target.AverageValue with
  | some targetUtilizationPerPod =>
    match gatheredMetric.External.Current.AverageValue with
    | some utilization =>
      if ¬ (|1 - (utilization : ℚ) / ((targetUtilizationPerPod : ℚ) * (currentReplicas : ℚ))| ≤ tolerance) then
        .ok ⌈(utilization : ℚ) / (targetUtilizationPerPod : ℚ)⌉
      else
        .ok currentReplicas
    | none => .crash
  | none =>
    match gatheredMetric.Spec.External.Target.Value with
    | some targetUtilization =>
      match gatheredMetric.External.Current.Value, gatheredMetric.External.ReadyPodCount with
      | some utilization, some readyPodCount =>
        .ok (GetUsageRatioReplicaCount calculater currentReplicas
          ((utilization : ℚ) / (targetUtilization : ℚ)) readyPodCount)
      | _, _ => .crash
    | none =>
      .err "invalid external metric source: neither a value target nor an average value target was set"

/-- Evaluator models the top-level `Evaluator` struct (src/evaluate.go): the
four per-type evaluaters are interface fields, modelled as functions.  The
`Pods` interface returns a bare `int32` (no error); its panic outcome is
`none`. -/
structure Evaluator where
  External : Int → GatheredMetric → ℚ → EvalResult
  Object : Int → GatheredMetric → ℚ → EvalResult
  Pods : Int → GatheredMetric → Option Int
  Resource : Int → GatheredMetric → ℚ → EvalResult
  Tolerance : ℚ

/-- EvaluateSingleMetricWithOptions (src/evaluate.go): dispatch on
`Spec.Type`; the pods result is wrapped with a nil error; an unknown type is
an error. -/
def EvaluateSingleMetricWithOptions (e : Evaluator) (gatheredMetric : GatheredMetric)
    (currentReplicas : Int) (tolerance : ℚ) : EvalResult :=
  if gatheredMetric.Spec.MetricType = "Object" then
    e.Object currentReplicas gatheredMetric tolerance
  else if gatheredMetric.Spec.MetricType = "Pods" then
    match e.Pods currentReplicas gatheredMetric with
    | none => .crash
    | some n => .ok n
  else if gatheredMetric.Spec.MetricType = "Resource" then
    e.Resource currentReplicas gatheredMetric tolerance
  else if gatheredMetric.Spec.MetricType = "External" then
    e.External currentReplicas gatheredMetric tolerance
  else
    .err ("unknown metric source type \"" ++ gatheredMetric.Spec.MetricType ++ "\"")

/-- Result of `EvaluateWithOptions`, which returns `(int32, error)` where a
non-nil error is an `*EvaluatorMultiMetricError` carrying `Partial` and
`Errors`.  `multiErr replicas partialFlag errs` models that pair; `crash`
models a propagated panic. -/
inductive MultiResult where
  | ok (replicas : Int)
  | multiErr (replicas : Int) (partialFlag : Bool) (errs : List String)
  | crash
deriving DecidableEq, Repr

/-- The `for i, gatheredMetric := range gatheredMetrics` loop of
`EvaluateWithOptions`: on error, collect and continue; on success, assign the
proposal outright when `i == 0` and otherwise keep the larger value. -/
def evalLoop (e : Evaluator) (currentReplicas : Int) (tolerance : ℚ) :
    List (Nat × GatheredMetric) → Int → List String → Option (Int × List String)
  | [], evaluation, errs => some (evaluation, errs)
  | (i, gatheredMetric) :: rest, evaluation, errs =>
    match EvaluateSingleMetricWithOptions e gatheredMetric currentReplicas tolerance with
    | .crash => none
    | .err msg => evalLoop e currentReplicas tolerance rest evaluation (errs ++ [msg])
    | .ok proposedEvaluation =>
      let ev1 := if i = 0 then proposedEvaluation else evaluation
      let ev2 := if ev1 < proposedEvaluation then proposedEvaluation else ev1
      evalLoop e currentReplicas tolerance rest ev2 errs

/-- EvaluateWithOptions (src/evaluate.go): evaluate every metric, reduce the
successes to the largest proposal, and report collected failures with the
`Partial` flag set exactly when not every metric failed companioned by the
partial result (or `0` when every metric failed). -/
def EvaluateWithOptions (e : Evaluator) (gatheredMetrics : List GatheredMetric)
    (currentReplicas : Int) (tolerance : ℚ) : MultiResult :=
  match evalLoop e currentReplicas tolerance gatheredMetrics.enum 0 [] with
  | none => .crash
  | some (evaluation, evaluationErrors) =>
    if 0 < evaluationErrors.length then
      if evaluationErrors.length < gatheredMetrics.length then
        .multiErr evaluation true evaluationErrors
      else
        .multiErr 0 false evaluationErrors
    else
      .ok evaluation

/-! ### Spec-side quantities

The following definitions restate quantities the way the specification
describes them (filtered sums over matched pods, the integer-division
average); the theorems below prove the source functions compute them. -/

/-- The sub-list of `metrics` whose pods also have an entry in `requests`:
the pods the spec says are summed; the rest are "extraneous and skipped". -/
def specMatched (metrics : MetricsInfo) (requests : List (String × Int)) : MetricsInfo :=
  metrics.filter (fun p => (lookupRequest requests p.1).isSome)

/-- Spec-side `metricsTotal`: sum of metric values over matched pods only. -/
def specMatchedMetricsTotal (metrics : MetricsInfo) (requests : List (String × Int)) : Int :=
  metricsTotal (specMatched metrics requests)

/-- Spec-side `requestsTotal`: sum of `requests[pod]` over matched pods. -/
def specMatchedRequestsTotal (metrics : MetricsInfo) (requests : List (String × Int)) : Int :=
  ((specMatched metrics requests).map (fun p => (lookupRequest requests p.1).getD 0)).sum

/-- Spec-side `numEntries`: the number of matched pods. -/
def specNumMatched (metrics : MetricsInfo) (requests : List (String × Int)) : Nat :=
  (specMatched metrics requests).length

/-- The accumulation loop of `GetResourceUtilizationRatio` computes exactly
the spec-side matched sums and count. -/
theorem utilLoop_eq_spec (requests : List (String × Int)) (metrics : MetricsInfo) :
    utilLoop requests metrics =
      (specMatchedMetricsTotal metrics requests, specMatchedRequestsTotal metrics requests,
        (specNumMatched metrics requests : Int)) := by
  induction metrics with
  | nil =>
    simp [utilLoop, specMatchedMetricsTotal, specMatchedRequestsTotal, specNumMatched,
      specMatched, metricsTotal]
  | cons head rest ih =>
    obtain ⟨podName, metric⟩ := head
    cases h : lookupRequest requests podName with
    | none =>
      simp only [utilLoop, h, ih, specMatchedMetricsTotal, specMatchedRequestsTotal,
        specNumMatched, specMatched, List.filter_cons, metricsTotal]
      simp [h]
    | some request =>
      simp only [utilLoop, h, ih, specMatchedMetricsTotal, specMatchedRequestsTotal,
        specNumMatched, specMatched, List.filter_cons, metricsTotal]
      simp [h]
      omega

/-- C5: `GetResourceUtilizationRatio` sums metric values only over pods that
also have an entry in `requests` (metrics for absent pods are skipped
without error), fails with the no-matching-metrics error exactly when the
matched requests total is zero, and otherwise returns
`currentUtilization = (metricsTotal * 100) / requestsTotal` (truncating
integer division), `ratio = currentUtilization / targetUtilization`, and
`rawAverage = metricsTotal / numMatchedPods`. -/
theorem resourceUtilizationMatchedSums (metrics : MetricsInfo)
    (requests : List (String × Int)) (targetUtilization : Int) :
    GetResourceUtilizationRatio metrics requests targetUtilization =
      if specMatchedRequestsTotal metrics requests = 0 then
        .err "no metrics returned matched known pods"
      else
        .ok (((Int.tdiv (specMatchedMetricsTotal metrics requests * 100)
                (specMatchedRequestsTotal metrics requests) : ℤ) : ℚ) / (targetUtilization : ℚ))
          (Int.tdiv (specMatchedMetricsTotal metrics requests * 100)
            (specMatchedRequestsTotal metrics requests))
          (Int.tdiv (specMatchedMetricsTotal metrics requests)
            (specNumMatched metrics requests : Int)) := by
  simp only [GetResourceUtilizationRatio, utilLoop_eq_spec]

/-- C9: scale-from-zero: with `currentReplicas = 0`,
`GetUsageRatioReplicaCount` returns `ceil(usageRatio)` whatever the
tolerance and whatever `readyPodCount` (which the right-hand side does not
mention). -/
theorem usageRatioScaleFromZero (tolerance ratio1 : ℚ) (readyPodCount : Int) :
    GetUsageRatioReplicaCount ⟨tolerance⟩ 0 ratio1 readyPodCount = ⌈ ratio1⌉ := by
  simp [GetUsageRatioReplicaCount]

/-- C7 counterexample: on an empty metrics mapping
`GetMetricUtilizationRatio` reaches the division
`metricsTotal / int64(len(metrics))` with a zero divisor — a Go runtime
panic, modelled `none` — rather than failing with a returned error: the
function's signature has no error return and the division is unguarded. -/
theorem plainUtilizationEmptyPanics :
    GetMetricUtilizationRatio [] 10 = none := by
  simp [GetMetricUtilizationRatio]

/-- C7 amended: for every target, `GetMetricUtilizationRatio` applied to an
empty metrics mapping performs the unguarded division by `len(metrics) = 0`
and panics (`none`); no error value is produced. -/
theorem plainUtilizationEmptyAlwaysPanics (targetUtilization : Int) :
    GetMetricUtilizationRatio [] targetUtilization = none := by
  simp [GetMetricUtilizationRatio]

/-! ### Reads after map writes -/

/-- A Go map write followed by a read: reading the written key yields the
written value, other keys are unchanged. -/
theorem lookupMetric_insertMetric (metrics : MetricsInfo) (k : String) (m : Metric)
    (p : String) :
    lookupMetric (insertMetric metrics k m) p =
      if p = k then some m else lookupMetric metrics p := by
  induction metrics with
  | nil =>
    by_cases hpk : p = k
    · subst hpk; simp [insertMetric, lookupMetric, List.find?]
    · have hkp : ¬ (k = p) := fun h => hpk h.symm
      simp [insertMetric, lookupMetric, List.find?, hkp, hpk]
  | cons q rest ih =>
    by_cases hq : q.1 = k
    · rw [show insertMetric (q :: rest) k m = (k, m) :: rest from by
        simp [insertMetric, hq]]
      by_cases hpk : p = k
      · subst hpk
        simp [lookupMetric, List.find?]
      · have hkp : ¬ (k = p) := fun h => hpk h.symm
        have hqp : ¬ (q.1 = p) := by rw [hq]; exact hkp
        simp [lookupMetric, List.find?, hkp, hqp, hpk]
    · rw [show insertMetric (q :: rest) k m = q :: insertMetric rest k m from by
        simp [insertMetric, hq]]
      by_cases hqp : q.1 = p
      · have hpk : ¬ (p = k) := by rw [← hqp]; exact hq
        simp [lookupMetric, List.find?, hqp, hpk]
      · simp only [lookupMetric, List.find?] at ih ⊢
        simp only [hqp, decide_eq_false hqp]
        exact ih

/-- Reading after a `setPods` loop: pods in the written set read back their
assigned values, the rest are unchanged. -/
theorem lookupMetric_setPods (pods : List String) (metrics : MetricsInfo)
    (f : String → Int) (p : String) :
    lookupMetric (setPods metrics pods f) p =
      if p ∈ pods then some ⟨f p⟩ else lookupMetric metrics p := by
  induction pods generalizing metrics with
  | nil => simp [setPods]
  | cons q rest ih =>
    have hstep : setPods metrics (q :: rest) f = setPods (insertMetric metrics q ⟨f q⟩) rest f := rfl
    rw [hstep, ih, lookupMetric_insertMetric]
    by_cases hp : p ∈ rest
    · simp [hp]
    · by_cases hpq : p = q
      · subst hpq; simp [hp]
      · simp [hp, hpq]

/-- C6 counterexample: with one gathered pod at exactly its request
(usage ratio exactly `1.0`) and one missing pod, the resource slow-path
synthesis leaves the metrics mapping unchanged — the missing pod's value is
not set to `0` (nor to anything): the source's `if usageRatio < 1.0 / else
if usageRatio > 1.0` runs neither branch at `1.0`, contradicting the
claim's "if the ratio is greater than or equal to 1.0 the value is set to
0 in every case". -/
theorem resourceSynthesisSkipsAtOne :
    GetResourceUtilizationRatio [("a", ⟨100⟩)] [("a", 100), ("b", 50)] 100 = .ok 1 100 100 ∧
    synthesizeMissingResource [("a", ⟨100⟩)] [("a", 100), ("b", 50)] ["b"] 1 = [("a", ⟨100⟩)] ∧
    lookupMetric (synthesizeMissingResource [("a", ⟨100⟩)] [("a", 100), ("b", 50)] ["b"] 1)
      "b" = none := by
  refine ⟨?_, ?_, ?_⟩
  all_goals norm_num [GetResourceUtilizationRatio, utilLoop, lookupRequest, List.find?,
    Int.tdiv, synthesizeMissingResource, lookupMetric]
  decide

/-- C6 amended: in the resource average-utilization slow path, a missing
pod's synthesized value is `requests[pod]` when the initial usage ratio is
strictly below `1.0`, `0` when it is strictly above `1.0`, and at exactly
`1.0` the pod is left unset (the metrics mapping is unchanged), always
before the usage ratio is recomputed. -/
theorem resourceSynthesisMissingValues (metrics : MetricsInfo)
    (requests : List (String × Int)) (missingPods : List String) (ratio1 : ℚ) (p : String)
    (hp : p ∈ missingPods) :
    lookupMetric (synthesizeMissingResource metrics requests missingPods ratio1) p =
      if ratio1 < 1 then some ⟨(lookupRequest requests p).getD 0⟩
      else if 1 < ratio1 then some ⟨0⟩
      else lookupMetric metrics p := by
  unfold synthesizeMissingResource
  by_cases h1 : ratio1 < 1
  · rw [if_pos h1, if_pos h1, lookupMetric_setPods, if_pos hp]
  · by_cases h2 : 1 < ratio1
    · rw [if_neg h1, if_pos h2, if_neg h1, if_pos h2, lookupMetric_setPods, if_pos hp]
    · rw [if_neg h1, if_neg h2, if_neg h1, if_neg h2]

/-- C6 witness: a missing pod "b" with request `70` under an initial ratio
of `3/10 < 1` is synthesized at its full request. -/
theorem resourceSynthesisMissingValues_witness :
    lookupMetric (synthesizeMissingResource [("a", ⟨30⟩)] [("a", 100), ("b", 70)] ["b"]
      (3/10)) "b" = some ⟨70⟩ := by
  have h := resourceSynthesisMissingValues [("a", ⟨30⟩)] [("a", 100), ("b", 70)] ["b"]
    (3/10) "b" (by simp)
  rw [h]
  norm_num [lookupRequest, List.find?]
  decide

/-- C4 counterexample: an Object metric with a `Value` target of `1000`
(milli), current value `3000`, 2 current replicas, 5 ready pods and
tolerance `1/10`.  The claim predicts
`usageRatio = 3000/(1000*2) = 1.5`, outside tolerance, hence
`ceil(3000/1000) = 3` replicas; the code instead computes
`usageRatio = 3000/1000 = 3` and delegates to `GetUsageRatioReplicaCount`,
yielding `ceil(3 * readyPodCount) = 15`. -/
theorem objectValueTargetUsesReadyPods :
    ObjectEvaluate ⟨1/10⟩ 2
      { Spec := { MetricType := "Object",
                  Object := { Target := { TargetType := "Value", Value := some 1000 } } },
        Object := { Current := { Value := some 3000 }, ReadyPodCount := some 5 } }
      (1/10) = .ok 15 ∧ ((.ok 15 : EvalResult) ≠ .ok 3) := by
  constructor
  · norm_num [ObjectEvaluate, GetUsageRatioReplicaCount]
  · decide

/-- C4 amended: it is the `AverageValue`-target branch of the Object
evaluator that computes `usageRatio = current / (target * currentReplicas)`,
keeps `currentReplicas` when that ratio is within tolerance of `1.0`, and
otherwise returns `ceil(current / target)` (the `Value`-target branch
instead delegates to `GetUsageRatioReplicaCount` with the object's ready-pod
count). -/
theorem objectAverageValueToleranceBand (calculater : ReplicaCalculator)
    (currentReplicas : Int) (gatheredMetric : GatheredMetric) (tolerance : ℚ)
    (utilization targetAverageValue : Int)
    (htype : gatheredMetric.Spec.Object.Target.TargetType = "AverageValue")
    (hcur : gatheredMetric.Object.Current.AverageValue = some utilization)
    (htarget : gatheredMetric.Spec.Object.Target.AverageValue = some targetAverageValue) :
    ObjectEvaluate calculater currentReplicas gatheredMetric tolerance =
      (if |1 - (utilization : ℚ) / ((targetAverageValue : ℚ) * (currentReplicas : ℚ))| ≤ tolerance
        then .ok currentReplicas
        else .ok ⌈(utilization : ℚ) / (targetAverageValue : ℚ)⌉) := by
  unfold ObjectEvaluate
  rw [htype]
  rw [if_neg (by decide), if_pos rfl, hcur, htarget]
  by_cases hband :
      |1 - (utilization : ℚ) / ((targetAverageValue : ℚ) * (currentReplicas : ℚ))| ≤ tolerance
  · simp [hband]
  · simp [hband]

/-- C4 witness: current average `3000`, per-pod target `1000`, 2 replicas,
tolerance `1/10`: the ratio `3/2` is outside the band, so the evaluator
returns `ceil(3000/1000) = 3`. -/
theorem objectAverageValueToleranceBand_witness :
    ObjectEvaluate ⟨1/10⟩ 2
      { Spec := { MetricType := "Object",
                  Object := { Target := { TargetType := "AverageValue",
                                          AverageValue := some 1000 } } },
        Object := { Current := { AverageValue := some 3000 } } }
      (1/10) = .ok 3 := by
  rw [objectAverageValueToleranceBand ⟨1/10⟩ 2 _ (1/10) 3000 1000 rfl rfl rfl]
  norm_num [abs_of_pos]

/-- C8 counterexample: the Pods evaluator given a metric spec with no
average-value target does not return an invalid-metric-source error — it
cannot return any error (its Go signature is a bare `int32`); it
dereferences the nil target, a runtime panic (`none`). -/
theorem podsEvaluateNoErrorReturn :
    PodsEvaluate ⟨1/10⟩ 3 {} = none := by
  rfl

/-- C8 amended: the Resource, Object and External evaluators each return
their type-specific invalid-metric-source error when the spec sets neither
of the target kinds they expect; the Pods evaluator instead has no error
return and panics (`none`) on a spec with no average-value target. -/
theorem invalidMetricSourceErrors :
    (∀ (calculater : ReplicaCalculator) (currentReplicas : Int) (g : GatheredMetric)
        (tolerance : ℚ),
      g.Spec.Resource.Target.AverageValue = none →
      g.Spec.Resource.Target.AverageUtilization = none →
      ResourceEvaluate calculater currentReplicas g tolerance =
        .err "invalid resource metric source: neither a utilization target nor a value target was set") ∧
    (∀ (calculater : ReplicaCalculator) (currentReplicas : Int) (g : GatheredMetric)
        (tolerance : ℚ),
      g.Spec.Object.Target.TargetType ≠ "Value" →
      g.Spec.Object.Target.TargetType ≠ "AverageValue" →
      ObjectEvaluate calculater currentReplicas g tolerance =
        .err "invalid object metric source: neither a value target nor an average value target was set") ∧
    (∀ (calculater : ReplicaCalculator) (currentReplicas : Int) (g : GatheredMetric)
        (tolerance : ℚ),
      g.Spec.External.Target.AverageValue = none →
      g.Spec.External.Target.Value = none →
      ExternalEvaluate calculater currentReplicas g tolerance =
        .err "invalid external metric source: neither a value target nor an average value target was set") ∧
    (∀ (calculater : ReplicaCalculator) (currentReplicas : Int) (g : GatheredMetric),
      g.Spec.Pods.Target.AverageValue = none →
      PodsEvaluate calculater currentReplicas g = none) := by
  refine ⟨?_, ?_, ?_, ?_⟩
  · intro calculater currentReplicas g tolerance h1 h2
    unfold ResourceEvaluate
    rw [h1, h2]
  · intro calculater currentReplicas g tolerance h1 h2
    unfold ObjectEvaluate
    rw [if_neg h1, if_neg h2]
  · intro calculater currentReplicas g tolerance h1 h2
    unfold ExternalEvaluate
    rw [h1, h2]
  · intro calculater currentReplicas g h1
    unfold PodsEvaluate
    rw [h1]

/-- C8 witness: at a default metric spec (no targets set, empty target type
string) the three fallible evaluators return their invalid-metric-source
errors and the Pods evaluator panics. -/
theorem invalidMetricSourceErrors_witness :
    ResourceEvaluate ⟨0⟩ 1 {} 0 =
      .err "invalid resource metric source: neither a utilization target nor a value target was set" ∧
    ObjectEvaluate ⟨0⟩ 1 {} 0 =
      .err "invalid object metric source: neither a value target nor an average value target was set" ∧
    ExternalEvaluate ⟨0⟩ 1 {} 0 =
      .err "invalid external metric source: neither a value target nor an average value target was set" ∧
    PodsEvaluate ⟨0⟩ 1 {} = none := by
  refine ⟨?_, ?_, ?_, ?_⟩
  · exact invalidMetricSourceErrors.1 ⟨0⟩ 1 {} 0 rfl rfl
  · exact invalidMetricSourceErrors.2.1 ⟨0⟩ 1 {} 0 (by decide) (by decide)
  · exact invalidMetricSourceErrors.2.2.1 ⟨0⟩ 1 {} 0 rfl rfl
  · exact invalidMetricSourceErrors.2.2.2 ⟨0⟩ 1 {} rfl

/-! ### The slow path, spec-side -/

/-- Spec-side plain usage ratio: the truncated per-pod average of the
metrics divided by the target
(`SUM(pod metrics) / number of pods / targetUtilization`). -/
def plainUsage (metrics : MetricsInfo) (targetUtilization : Int) : ℚ :=
  ((Int.tdiv (metricsTotal metrics) (metrics.length : Int) : ℤ) : ℚ) / (targetUtilization : ℚ)

/-- On a non-empty metrics map, `GetMetricUtilizationRatio` returns the
spec-side plain usage ratio. -/
theorem getMetricUtilization_of_ne_nil (metrics : MetricsInfo) (targetUtilization : Int)
    (h : metrics ≠ []) :
    GetMetricUtilizationRatio metrics targetUtilization =
      some (plainUsage metrics targetUtilization,
        Int.tdiv (metricsTotal metrics) (metrics.length : Int)) := by
  unfold GetMetricUtilizationRatio plainUsage
  rw [if_neg (by simpa using h)]

/-- Inserting into a map never empties it. -/
theorem insertMetric_ne_nil (metrics : MetricsInfo) (k : String) (m : Metric) :
    insertMetric metrics k m ≠ [] := by
  cases metrics with
  | nil => simp [insertMetric]
  | cons q rest =>
    unfold insertMetric
    split <;> simp

/-- A `setPods` loop never empties a non-empty map. -/
theorem setPods_ne_nil (pods : List String) (metrics : MetricsInfo) (f : String → Int)
    (h : metrics ≠ []) : setPods metrics pods f ≠ [] := by
  induction pods generalizing metrics with
  | nil => exact h
  | cons q rest ih =>
    exact ih (insertMetric metrics q ⟨f q⟩) (insertMetric_ne_nil metrics q ⟨f q⟩)

/-- Spec-side missing-pod synthesis of the plain slow path: missing pods
are given the target value (ratio below `1.0`) or `0` (otherwise). -/
def plainMetricsAfterMissing (metrics : MetricsInfo) (targetUtilization : Int)
    (missingPods : List String) : MetricsInfo :=
  if 0 < missingPods.length then
    if plainUsage metrics targetUtilization < 1 then
      setPods metrics missingPods (fun _ => targetUtilization)
    else
      setPods metrics missingPods (fun _ => 0)
  else metrics

/-- Spec-side post-synthesis metrics map of the plain slow path: after the
missing-pod synthesis, rebalanced ignored pods are zeroed. -/
def plainNewMetrics (metrics : MetricsInfo) (targetUtilization : Int)
    (missingPods ignoredPods : List String) : MetricsInfo :=
  if 0 < ignoredPods.length ∧ 1 < plainUsage metrics targetUtilization then
    setPods (plainMetricsAfterMissing metrics targetUtilization missingPods) ignoredPods
      (fun _ => 0)
  else plainMetricsAfterMissing metrics targetUtilization missingPods

/-- Spec-side decision of the plain slow path: `currentReplicas` whenever
the new ratio is inside the tolerance band or the ratio crossed `1.0`
relative to the original ratio; otherwise
`ceil(newUsageRatio * len(metrics))` with the post-synthesis metrics count
as the multiplier. -/
def plainSlowPathResult (r : ReplicaCalculator) (metrics : MetricsInfo)
    (currentReplicas targetUtilization : Int)
    (missingPods ignoredPods : List String) : Int :=
  let rOld := plainUsage metrics targetUtilization
  let metrics2 := plainNewMetrics metrics targetUtilization missingPods ignoredPods
  let rNew := plainUsage metrics2 targetUtilization
  if |1 - rNew| ≤ r.Tolerance ∨ (rOld < 1 ∧ 1 < rNew) ∨ (1 < rOld ∧ rNew < 1) then
    currentReplicas
  else
    ⌈rNew * (metrics2.length : ℚ)⌉

/-- The post-synthesis map of the plain slow path is non-empty whenever the
input map is. -/
theorem plainNewMetrics_ne_nil (metrics : MetricsInfo) (targetUtilization : Int)
    (missingPods ignoredPods : List String) (h : metrics ≠ []) :
    plainNewMetrics metrics targetUtilization missingPods ignoredPods ≠ [] := by
  have h1 : plainMetricsAfterMissing metrics targetUtilization missingPods ≠ [] := by
    unfold plainMetricsAfterMissing
    split
    · split <;> exact setPods_ne_nil _ _ _ h
    · exact h
  unfold plainNewMetrics
  split
  · exact setPods_ne_nil _ _ _ h1
  · exact h1

/-- The plain slow path (missing pods, or rebalanced ignored pods) returns
exactly the spec-side decision: `currentReplicas` inside the tolerance band
or on a ratio crossing of `1.0`, otherwise the ceiling of the new ratio
times the post-synthesis metrics count. -/
theorem plainSlowPath_eq (r : ReplicaCalculator) (metrics : MetricsInfo)
    (currentReplicas targetUtilization readyPodCount : Int)
    (missingPods ignoredPods : List String)
    (hne : metrics ≠ [])
    (hslow : missingPods ≠ [] ∨
      (ignoredPods ≠ [] ∧ 1 < plainUsage metrics targetUtilization)) :
    GetPlainMetricReplicaCount r metrics currentReplicas targetUtilization readyPodCount
        missingPods ignoredPods =
      some (plainSlowPathResult r metrics currentReplicas targetUtilization
        missingPods ignoredPods) := by
  have hcond : ¬ (¬ (0 < ignoredPods.length ∧ 1 < plainUsage metrics targetUtilization) ∧
      missingPods.length = 0) := by
    rcases hslow with h | ⟨h1, h2⟩
    · intro hc
      exact h (List.length_eq_zero.mp hc.2)
    · intro hc
      exact hc.1 ⟨List.length_pos.mpr h1, h2⟩
  have h2ne := plainNewMetrics_ne_nil metrics targetUtilization missingPods ignoredPods hne
  unfold GetPlainMetricReplicaCount plainSlowPathResult plainNewMetrics
    plainMetricsAfterMissing
  unfold plainNewMetrics plainMetricsAfterMissing at h2ne
  rw [getMetricUtilization_of_ne_nil _ _ hne]
  dsimp only
  rw [if_neg hcond, getMetricUtilization_of_ne_nil _ _ h2ne]
  dsimp only
  split <;> rw [apply_ite Option.some]

/-- Spec-side resource usage ratio: the truncated integer utilization
percentage over matched pods divided by the target percentage. -/
def resourceUsageOf (metrics : MetricsInfo) (requests : List (String × Int))
    (targetUtilization : Int) : ℚ :=
  ((Int.tdiv (specMatchedMetricsTotal metrics requests * 100)
      (specMatchedRequestsTotal metrics requests) : ℤ) : ℚ) / (targetUtilization : ℚ)

/-- When the matched requests total is non-zero,
`GetResourceUtilizationRatio` succeeds with the spec-side ratio. -/
theorem getResourceUtilization_ok (metrics : MetricsInfo)
    (requests : List (String × Int)) (targetUtilization : Int)
    (h : specMatchedRequestsTotal metrics requests ≠ 0) :
    GetResourceUtilizationRatio metrics requests targetUtilization =
      .ok (resourceUsageOf metrics requests targetUtilization)
        (Int.tdiv (specMatchedMetricsTotal metrics requests * 100)
          (specMatchedRequestsTotal metrics requests))
        (Int.tdiv (specMatchedMetricsTotal metrics requests)
          (specNumMatched metrics requests : Int)) := by
  unfold GetResourceUtilizationRatio resourceUsageOf
  rw [utilLoop_eq_spec]
  dsimp only
  rw [if_neg h]

/-- Spec-side missing-pod synthesis stage of the resource slow path. -/
def resourceMetricsAfterMissing (res : ResourceMetric) (targetUtilization : Int) :
    MetricsInfo :=
  if 0 < res.MissingPods.length then
    synthesizeMissingResource res.PodMetricsInfo res.Requests res.MissingPods
      (resourceUsageOf res.PodMetricsInfo res.Requests targetUtilization)
  else res.PodMetricsInfo

/-- Spec-side post-synthesis metrics map of the resource slow path. -/
def resourceNewMetrics (res : ResourceMetric) (targetUtilization : Int) : MetricsInfo :=
  if 0 < res.IgnoredPods.length ∧
      1 < resourceUsageOf res.PodMetricsInfo res.Requests targetUtilization then
    setPods (resourceMetricsAfterMissing res targetUtilization) res.IgnoredPods (fun _ => 0)
  else resourceMetricsAfterMissing res targetUtilization

/-- Spec-side decision of the resource slow path: `currentReplicas` inside
the tolerance band or on a ratio crossing of `1.0`, otherwise the ceiling of
the new ratio times the post-synthesis metrics count. -/
def resourceSlowPathResult (currentReplicas : Int) (res : ResourceMetric)
    (targetUtilization : Int) (tolerance : ℚ) : Int :=
  if |1 - resourceUsageOf (resourceNewMetrics res targetUtilization) res.Requests
        targetUtilization| ≤ tolerance ∨
      (resourceUsageOf res.PodMetricsInfo res.Requests targetUtilization < 1 ∧
        1 < resourceUsageOf (resourceNewMetrics res targetUtilization) res.Requests
          targetUtilization) ∨
      (1 < resourceUsageOf res.PodMetricsInfo res.Requests targetUtilization ∧
        resourceUsageOf (resourceNewMetrics res targetUtilization) res.Requests
          targetUtilization < 1) then
    currentReplicas
  else
    ⌈resourceUsageOf (resourceNewMetrics res targetUtilization) res.Requests
        targetUtilization * ((resourceNewMetrics res targetUtilization).length : ℚ)⌉

/-- The resource average-utilization slow path returns exactly the
spec-side decision, provided both ratio computations succeed. -/
theorem resourceSlowPath_eq (currentReplicas : Int) (res : ResourceMetric)
    (targetUtilization : Int) (tolerance : ℚ)
    (h1 : specMatchedRequestsTotal res.PodMetricsInfo res.Requests ≠ 0)
    (hslow : res.MissingPods ≠ [] ∨ (res.IgnoredPods ≠ [] ∧
      1 < resourceUsageOf res.PodMetricsInfo res.Requests targetUtilization))
    (h2 : specMatchedRequestsTotal (resourceNewMetrics res targetUtilization)
      res.Requests ≠ 0) :
    resourceAverageUtilization currentReplicas res targetUtilization tolerance =
      .ok (resourceSlowPathResult currentReplicas res targetUtilization tolerance) := by
  have hcond : ¬ (¬ (0 < res.IgnoredPods.length ∧
      1 < resourceUsageOf res.PodMetricsInfo res.Requests targetUtilization) ∧
      res.MissingPods.length = 0) := by
    rcases hslow with h | ⟨ha, hb⟩
    · intro hc
      exact h (List.length_eq_zero.mp hc.2)
    · intro hc
      exact hc.1 ⟨List.length_pos.mpr ha, hb⟩
  unfold resourceAverageUtilization resourceSlowPathResult resourceNewMetrics
    resourceMetricsAfterMissing
  unfold resourceNewMetrics resourceMetricsAfterMissing at h2
  rw [getResourceUtilization_ok _ _ _ h1]
  dsimp only
  rw [if_neg hcond, getResourceUtilization_ok _ _ _ h2]
  dsimp only
  split <;> rw [apply_ite EvalResult.ok]

/-- C2: sign-flip guard on the slow path.  In `GetPlainMetricReplicaCount`
(when missing pods or rebalanced ignored pods exist) and in the resource
average-utilization evaluation, after synthesizing substitute values the
function returns `currentReplicas` unchanged whenever
`|1.0 - newUsageRatio| <= tolerance` or the ratio crossed `1.0` relative to
the original ratio; otherwise it returns
`ceil(newUsageRatio * len(metrics))` with the post-synthesis metrics count
as the multiplier, not `readyPodCount` (the result is independent of
`readyPodCount`). -/
theorem slowPathSignFlipGuard :
    (∀ (r : ReplicaCalculator) (metrics : MetricsInfo)
        (currentReplicas targetUtilization readyPodCount : Int)
        (missingPods ignoredPods : List String),
      metrics ≠ [] →
      (missingPods ≠ [] ∨
        (ignoredPods ≠ [] ∧ 1 < plainUsage metrics targetUtilization)) →
      GetPlainMetricReplicaCount r metrics currentReplicas targetUtilization
          readyPodCount missingPods ignoredPods =
        some (plainSlowPathResult r metrics currentReplicas targetUtilization
          missingPods ignoredPods)) ∧
    (∀ (currentReplicas : Int) (res : ResourceMetric) (targetUtilization : Int)
        (tolerance : ℚ),
      specMatchedRequestsTotal res.PodMetricsInfo res.Requests ≠ 0 →
      (res.MissingPods ≠ [] ∨ (res.IgnoredPods ≠ [] ∧
        1 < resourceUsageOf res.PodMetricsInfo res.Requests targetUtilization)) →
      specMatchedRequestsTotal (resourceNewMetrics res targetUtilization)
        res.Requests ≠ 0 →
      resourceAverageUtilization currentReplicas res targetUtilization tolerance =
        .ok (resourceSlowPathResult currentReplicas res targetUtilization tolerance)) :=
  ⟨plainSlowPath_eq, resourceSlowPath_eq⟩

/-- C2 witness: one gathered pod at half its target and one missing pod, on
both slow paths: the missing pod is synthesized at the full target/request,
the new ratio `3/4` is outside the `1/10` band without crossing `1.0`, and
both paths return `ceil(3/4 * 2) = 2` using the post-synthesis count `2`. -/
theorem slowPathSignFlipGuard_witness :
    GetPlainMetricReplicaCount ⟨1/10⟩ [("a", ⟨50⟩)] 1 100 1 ["b"] [] = some 2 ∧
    resourceAverageUtilization 1
      ⟨[("a", ⟨50⟩)], [("a", 100), ("b", 100)], 1, [], ["b"]⟩ 100 (1/10) = .ok 2 := by
  have hu : plainUsage [("a", (⟨50⟩ : Metric))] 100 = 1/2 := by
    norm_num [plainUsage, metricsTotal, Int.tdiv]
  have hm2 : plainNewMetrics [("a", ⟨50⟩)] 100 ["b"] [] = [("a", ⟨50⟩), ("b", ⟨100⟩)] := by
    simp [plainNewMetrics, plainMetricsAfterMissing, hu, setPods, insertMetric]
    norm_num
  have hu2 : plainUsage [("a", (⟨50⟩ : Metric)), ("b", ⟨100⟩)] 100 = 3/4 := by
    norm_num [plainUsage, metricsTotal, Int.tdiv]
  have hru : resourceUsageOf [("a", ⟨50⟩)] [("a", 100), ("b", 100)] 100 = 1/2 := by
    simp [resourceUsageOf, specMatchedMetricsTotal, specMatchedRequestsTotal, specMatched,
      metricsTotal, lookupRequest]
    norm_num [Int.tdiv]
  have hrm2 : resourceNewMetrics
      ⟨[("a", ⟨50⟩)], [("a", 100), ("b", 100)], 1, [], ["b"]⟩ 100 =
      [("a", ⟨50⟩), ("b", ⟨100⟩)] := by
    simp [resourceNewMetrics, resourceMetricsAfterMissing, hru, synthesizeMissingResource,
      setPods, insertMetric, lookupRequest]
    norm_num
  have hru2 : resourceUsageOf [("a", ⟨50⟩), ("b", ⟨100⟩)] [("a", 100), ("b", 100)] 100 =
      3/4 := by
    simp [resourceUsageOf, specMatchedMetricsTotal, specMatchedRequestsTotal, specMatched,
      metricsTotal, lookupRequest]
    norm_num [Int.tdiv]
  constructor
  · rw [slowPathSignFlipGuard.1 ⟨1/10⟩ [("a", ⟨50⟩)] 1 100 1 ["b"] []
      (by simp) (Or.inl (by simp))]
    simp only [plainSlowPathResult, hm2, hu, hu2]
    norm_num [abs_of_pos, Int.ceil_eq_iff]
  · have h1 : specMatchedRequestsTotal [("a", (⟨50⟩ : Metric))] [("a", 100), ("b", 100)] ≠ 0 := by
      simp [specMatchedRequestsTotal, specMatched, lookupRequest]
    have h2 : specMatchedRequestsTotal
        (resourceNewMetrics ⟨[("a", ⟨50⟩)], [("a", 100), ("b", 100)], 1, [], ["b"]⟩ 100)
        [("a", 100), ("b", 100)] ≠ 0 := by
      rw [hrm2]
      simp [specMatchedRequestsTotal, specMatched, lookupRequest]
    rw [slowPathSignFlipGuard.2 1 ⟨[("a", ⟨50⟩)], [("a", 100), ("b", 100)], 1, [], ["b"]⟩
      100 (1/10) h1 (Or.inl (by simp)) h2]
    simp only [resourceSlowPathResult, hrm2, hru, hru2]
    norm_num [abs_of_pos, Int.ceil_eq_iff]

/-! ### The second utilization call on the slow path -/

/-- A value found in the requests map is one of its entries' values. -/
theorem lookupRequest_mem (requests : List (String × Int)) (k : String) (v : Int)
    (h : lookupRequest requests k = some v) : ∃ pr ∈ requests, pr.2 = v := by
  unfold lookupRequest at h
  cases hf : requests.find? (fun p => p.1 = k) with
  | none => rw [hf] at h; simp at h
  | some pr =>
    rw [hf] at h
    simp at h
    exact ⟨pr, List.mem_of_find?_eq_some hf, by simpa using h⟩

/-- With nonnegative requests, the matched requests total is nonnegative. -/
theorem utilLoop_rt_nonneg (requests : List (String × Int)) (metrics : MetricsInfo)
    (hreq : ∀ pr ∈ requests, 0 ≤ pr.2) : 0 ≤ (utilLoop requests metrics).2.1 := by
  induction metrics with
  | nil => simp [utilLoop]
  | cons q rest ih =>
    obtain ⟨podName, metric⟩ := q
    unfold utilLoop
    cases h : lookupRequest requests podName with
    | none => simpa using ih
    | some request =>
      obtain ⟨pr, hmem, hval⟩ := lookupRequest_mem requests podName request h
      have hr : 0 ≤ request := hval ▸ hreq pr hmem
      simpa using add_nonneg ih hr

/-- With nonnegative requests, a map write can only grow the matched
requests total. -/
theorem utilLoop_rt_insert (requests : List (String × Int)) (metrics : MetricsInfo)
    (k : String) (v : Metric) (hreq : ∀ pr ∈ requests, 0 ≤ pr.2) :
    (utilLoop requests metrics).2.1 ≤ (utilLoop requests (insertMetric metrics k v)).2.1 := by
  induction metrics with
  | nil =>
    rw [show insertMetric [] k v = [(k, v)] from rfl]
    unfold utilLoop
    cases h : lookupRequest requests k with
    | none => simp [utilLoop]
    | some request =>
      obtain ⟨pr, hmem, hval⟩ := lookupRequest_mem requests k request h
      have hr : 0 ≤ request := hval ▸ hreq pr hmem
      simpa [utilLoop] using hr
  | cons q rest ih =>
    by_cases hq : q.1 = k
    · rw [show insertMetric (q :: rest) k v = (k, v) :: rest from by
        simp [insertMetric, hq]]
      obtain ⟨podName, metric⟩ := q
      simp only at hq
      subst hq
      unfold utilLoop
      cases h : lookupRequest requests podName <;> simp
    · rw [show insertMetric (q :: rest) k v = q :: insertMetric rest k v from by
        simp [insertMetric, hq]]
      obtain ⟨podName, metric⟩ := q
      unfold utilLoop
      cases h : lookupRequest requests podName with
      | none => simpa using ih
      | some request => simpa using ih

/-- With nonnegative requests, a `setPods` loop can only grow the matched
requests total. -/
theorem utilLoop_rt_setPods (pods : List String) (requests : List (String × Int))
    (metrics : MetricsInfo) (f : String → Int) (hreq : ∀ pr ∈ requests, 0 ≤ pr.2) :
    (utilLoop requests metrics).2.1 ≤ (utilLoop requests (setPods metrics pods f)).2.1 := by
  induction pods generalizing metrics with
  | nil => exact le_refl _
  | cons p rest ih =>
    exact le_trans (utilLoop_rt_insert requests metrics p ⟨f p⟩ hreq)
      (ih (insertMetric metrics p ⟨f p⟩))

/-- With nonnegative requests, the missing-pod synthesis can only grow the
matched requests total. -/
theorem utilLoop_rt_synthesize (metrics : MetricsInfo) (requests : List (String × Int))
    (missingPods : List String) (ratio1 : ℚ) (hreq : ∀ pr ∈ requests, 0 ≤ pr.2) :
    (utilLoop requests metrics).2.1 ≤
      (utilLoop requests (synthesizeMissingResource metrics requests missingPods ratio1)).2.1 := by
  unfold synthesizeMissingResource
  split
  · exact utilLoop_rt_setPods _ _ _ _ hreq
  split
  · exact utilLoop_rt_setPods _ _ _ _ hreq
  · exact le_refl _

/-- C10 counterexample: with a negative request value the second
`GetResourceUtilizationRatio` call of the slow path is reachable as an
error even though the first call succeeded: pod "a" uses 3 of its request 5
(ratio `3/5 < 1`), missing pod "b" is synthesized at its request `-5`, and
the second call's matched requests total is `5 + (-5) = 0`. -/
theorem resourceSecondCallCanFail :
    GetResourceUtilizationRatio [("a", ⟨3⟩)] [("a", 5), ("b", -5)] 100 = .ok (3/5) 60 3 ∧
    resourceAverageUtilization 1 ⟨[("a", ⟨3⟩)], [("a", 5), ("b", -5)], 1, [], ["b"]⟩ 100 0 =
      .err "no metrics returned matched known pods" := by
  have h1 : GetResourceUtilizationRatio [("a", ⟨3⟩)] [("a", 5), ("b", -5)] 100 =
      .ok (3/5) 60 3 := by
    simp [GetResourceUtilizationRatio, utilLoop, lookupRequest]
    norm_num [Int.tdiv]
  have hm2 : synthesizeMissingResource [("a", ⟨3⟩)] [("a", 5), ("b", -5)] ["b"] (3/5) =
      [("a", ⟨3⟩), ("b", ⟨-5⟩)] := by
    simp [synthesizeMissingResource, setPods, insertMetric, lookupRequest]
    norm_num
  have hcall2 : GetResourceUtilizationRatio [("a", ⟨3⟩), ("b", ⟨-5⟩)] [("a", 5), ("b", -5)]
      100 = .err "no metrics returned matched known pods" := by
    simp [GetResourceUtilizationRatio, utilLoop, lookupRequest]
  refine ⟨h1, ?_⟩
  unfold resourceAverageUtilization
  dsimp only
  rw [h1]
  dsimp only
  rw [if_neg (by simp)]
  norm_num [hm2]
  rw [hcall2]

/-- C10 amended: with nonnegative request values, if the first
`GetResourceUtilizationRatio` call of the resource average-utilization path
succeeds then the whole evaluation succeeds: synthesis only adds or
overwrites metrics entries, so the matched requests total (positive, by
nonnegativity) cannot shrink to zero and the second call's error branch is
unreachable. -/
theorem resourceSecondCallSucceeds (currentReplicas : Int) (res : ResourceMetric)
    (targetUtilization : Int) (tolerance : ℚ) (q : ℚ) (cu raw : Int)
    (hreq : ∀ pr ∈ res.Requests, 0 ≤ pr.2)
    (hfirst : GetResourceUtilizationRatio res.PodMetricsInfo res.Requests
      targetUtilization = .ok q cu raw) :
    ∃ n, resourceAverageUtilization currentReplicas res targetUtilization tolerance =
      .ok n := by
  have hz : (utilLoop res.Requests res.PodMetricsInfo).2.1 ≠ 0 := by
    intro hz
    unfold GetResourceUtilizationRatio at hfirst
    rw [if_pos hz] at hfirst
    simp at hfirst
  have hspec1 := utilLoop_eq_spec res.Requests res.PodMetricsInfo
  have h1 : specMatchedRequestsTotal res.PodMetricsInfo res.Requests ≠ 0 := by
    intro hc
    rw [hspec1] at hz
    exact hz (by simpa using hc)
  have hpos : 0 < (utilLoop res.Requests res.PodMetricsInfo).2.1 :=
    lt_of_le_of_ne (utilLoop_rt_nonneg res.Requests res.PodMetricsInfo hreq) (Ne.symm hz)
  have hgrow : (utilLoop res.Requests res.PodMetricsInfo).2.1 ≤
      (utilLoop res.Requests (resourceNewMetrics res targetUtilization)).2.1 := by
    unfold resourceNewMetrics resourceMetricsAfterMissing
    have hstage : (utilLoop res.Requests res.PodMetricsInfo).2.1 ≤
        (utilLoop res.Requests (if 0 < res.MissingPods.length then
          synthesizeMissingResource res.PodMetricsInfo res.Requests res.MissingPods
            (resourceUsageOf res.PodMetricsInfo res.Requests targetUtilization)
        else res.PodMetricsInfo)).2.1 := by
      split
      · exact utilLoop_rt_synthesize _ _ _ _ hreq
      · exact le_refl _
    split
    · exact le_trans hstage (utilLoop_rt_setPods _ _ _ _ hreq)
    · exact hstage
  have h2 : specMatchedRequestsTotal (resourceNewMetrics res targetUtilization)
      res.Requests ≠ 0 := by
    intro hc
    have hs2 := utilLoop_eq_spec res.Requests (resourceNewMetrics res targetUtilization)
    rw [hspec1, hs2] at hgrow
    rw [hc] at hgrow
    rw [hspec1] at hpos
    dsimp only at hgrow hpos
    omega
  by_cases hfast : ¬ (0 < res.IgnoredPods.length ∧
      1 < resourceUsageOf res.PodMetricsInfo res.Requests targetUtilization) ∧
      res.MissingPods.length = 0
  · unfold resourceAverageUtilization
    rw [getResourceUtilization_ok _ _ _ h1]
    dsimp only
    rw [if_pos hfast]
    split
    · exact ⟨_, rfl⟩
    · exact ⟨_, rfl⟩
  · have hslow : res.MissingPods ≠ [] ∨ (res.IgnoredPods ≠ [] ∧
        1 < resourceUsageOf res.PodMetricsInfo res.Requests targetUtilization) := by
      by_cases hm : res.MissingPods.length = 0
      · have hC : 0 < res.IgnoredPods.length ∧
            1 < resourceUsageOf res.PodMetricsInfo res.Requests targetUtilization := by
          by_contra hc
          exact hfast ⟨hc, hm⟩
        exact Or.inr ⟨List.length_pos.mp hC.1, hC.2⟩
      · exact Or.inl fun hcon => hm (by simp [hcon])
    rw [resourceSlowPath_eq currentReplicas res targetUtilization tolerance h1 hslow h2]
    exact ⟨_, rfl⟩

/-- C10 witness: with nonnegative requests (both `100`), one gathered pod
and one missing pod, the first ratio call succeeds and so does the whole
evaluation. -/
theorem resourceSecondCallSucceeds_witness :
    ∃ n, resourceAverageUtilization 1
      ⟨[("a", ⟨50⟩)], [("a", 100), ("b", 100)], 1, [], ["b"]⟩ 100 (1/10) = .ok n := by
  apply resourceSecondCallSucceeds 1 _ 100 (1/10) (1/2) 50 50
  · decide
  · simp [GetResourceUtilizationRatio, utilLoop, lookupRequest]
    norm_num [Int.tdiv]

/-! ### Multi-metric evaluation, spec-side -/

/-- The outcome of each individual metric evaluation, in order. -/
def singleResults (e : Evaluator) (gatheredMetrics : List GatheredMetric)
    (currentReplicas : Int) (tolerance : ℚ) : List EvalResult :=
  gatheredMetrics.map
    (fun g => EvaluateSingleMetricWithOptions e g currentReplicas tolerance)

/-- The proposal of a successful evaluation. -/
def toOk : EvalResult → Option Int
  | .ok n => some n
  | _ => none

/-- The message of a failed evaluation. -/
def toErr : EvalResult → Option String
  | .err msg => some msg
  | _ => none

/-- The successful proposals, in order. -/
def successes (results : List EvalResult) : List Int :=
  results.filterMap toOk

/-- The failure messages, in order. -/
def failures (results : List EvalResult) : List String :=
  results.filterMap toErr

/-- The reduced proposal: the running maximum of the successful proposals,
seeded by the first metric's proposal when the first metric succeeds and by
`0` otherwise. -/
def reducedProposal : List EvalResult → Int
  | [] => 0
  | .ok n :: rest => (successes rest).foldl max n
  | _ :: rest => (successes rest).foldl max 0

/-- The seed never exceeds a running maximum. -/
theorem le_foldl_max (l : List Int) (a : Int) : a ≤ l.foldl max a := by
  induction l generalizing a with
  | nil => exact le_refl a
  | cons b l ih => exact le_trans (le_max_left a b) (ih (max a b))

/-- Every element is bounded by the running maximum over it. -/
theorem mem_le_foldl_max (l : List Int) (a : Int) : ∀ x ∈ l, x ≤ l.foldl max a := by
  induction l generalizing a with
  | nil => intro x hx; simp at hx
  | cons b l ih =>
    intro x hx
    rcases List.mem_cons.mp hx with h | h
    · subst h
      exact le_trans (le_max_right a x) (le_foldl_max l (max a x))
    · exact ih (max a b) x h

/-- The running maximum is the seed or one of the elements. -/
theorem foldl_max_mem (l : List Int) (a : Int) : l.foldl max a ∈ a :: l := by
  induction l generalizing a with
  | nil => simp
  | cons b l ih =>
    show List.foldl max (max a b) l ∈ a :: b :: l
    rcases List.mem_cons.mp (ih (max a b)) with h | h
    · rcases max_choice a b with hm | hm
      · rw [h, hm]
        exact List.mem_cons_self _ _
      · rw [h, hm]
        exact List.mem_cons_of_mem _ (List.mem_cons_self _ _)
    · exact List.mem_cons_of_mem _ (List.mem_cons_of_mem _ h)

/-- The Go `if proposedEvaluation > evaluation` update computes the max. -/
theorem ite_lt_max (ev pe : Int) : (if ev < pe then pe else ev) = max ev pe := by
  rcases le_or_lt pe ev with h | h
  · rw [if_neg (not_lt.mpr h), max_eq_left h]
  · rw [if_pos h, max_eq_right h.le]

/-- Behaviour of the evaluation loop over the tail of the enumeration
(indices at least 1): collect failures, fold the maximum over successes,
and abort on a panic. -/
theorem evalLoop_enumFrom (e : Evaluator) (currentReplicas : Int) (tolerance : ℚ)
    (gs : List GatheredMetric) (k : Nat) (hk : k ≠ 0) (ev : Int) (errs : List String) :
    evalLoop e currentReplicas tolerance (List.enumFrom k gs) ev errs =
      (if EvalResult.crash ∈ singleResults e gs currentReplicas tolerance then none
       else some ((successes (singleResults e gs currentReplicas tolerance)).foldl max ev,
         errs ++ failures (singleResults e gs currentReplicas tolerance))) := by
  induction gs generalizing k ev errs with
  | nil => simp [evalLoop, singleResults, successes, failures]
  | cons g gs ih =>
    rw [show List.enumFrom k (g :: gs) = (k, g) :: List.enumFrom (k + 1) gs from rfl]
    unfold evalLoop
    cases hres : EvaluateSingleMetricWithOptions e g currentReplicas tolerance with
    | crash =>
      simp [singleResults, hres]
    | err msg =>
      dsimp only
      rw [ih (k + 1) (Nat.succ_ne_zero k) ev (errs ++ [msg])]
      simp only [singleResults, List.map_cons, hres, List.mem_cons, successes, failures,
        List.filterMap_cons]
      rw [show toOk (.err msg) = none from rfl, show toErr (.err msg) = some msg from rfl]
      simp [singleResults, successes, failures]
    | ok pe =>
      have hk0 : ¬ (k = 0) := hk
      dsimp only
      rw [show (if k = 0 then pe else ev) = ev from if_neg hk0]
      rw [ih (k + 1) (Nat.succ_ne_zero k) (if ev < pe then pe else ev) errs]
      simp only [singleResults, List.map_cons, hres, List.mem_cons, successes, failures,
        List.filterMap_cons]
      rw [show toOk (.ok pe) = some pe from rfl, show toErr (.ok pe) = none from rfl]
      simp [singleResults, successes, failures, ite_lt_max]

/-- Every successful proposal is bounded by the reduced proposal. -/
theorem successes_le_reducedProposal (rs : List EvalResult) :
    ∀ n ∈ successes rs, n ≤ reducedProposal rs := by
  cases rs with
  | nil => simp [successes]
  | cons r rest =>
    cases r with
    | ok m =>
      intro x hx
      rw [show successes (.ok m :: rest) = m :: successes rest from by
        simp [successes, List.filterMap_cons, toOk]] at hx
      rw [show reducedProposal (.ok m :: rest) = (successes rest).foldl max m from rfl]
      rcases List.mem_cons.mp hx with h | h
      · exact h ▸ le_foldl_max _ _
      · exact mem_le_foldl_max _ _ x h
    | err msg =>
      intro x hx
      rw [show successes (.err msg :: rest) = successes rest from by
        simp [successes, List.filterMap_cons, toOk]] at hx
      rw [show reducedProposal (.err msg :: rest) = (successes rest).foldl max 0 from rfl]
      exact mem_le_foldl_max _ _ x hx
    | crash =>
      intro x hx
      rw [show successes (.crash :: rest) = successes rest from by
        simp [successes, List.filterMap_cons, toOk]] at hx
      rw [show reducedProposal (.crash :: rest) = (successes rest).foldl max 0 from rfl]
      exact mem_le_foldl_max _ _ x hx

/-- With no failures and no panic, the reduced proposal is one of the
successful proposals. -/
theorem reducedProposal_mem_successes (rs : List EvalResult) (hne : rs ≠ [])
    (hcrash : EvalResult.crash ∉ rs) (hfail : failures rs = []) :
    reducedProposal rs ∈ successes rs := by
  cases rs with
  | nil => exact absurd rfl hne
  | cons r rest =>
    cases r with
    | ok n =>
      rw [show reducedProposal (.ok n :: rest) = (successes rest).foldl max n from rfl]
      rw [show successes (.ok n :: rest) = n :: successes rest from by
        simp [successes, List.filterMap_cons, toOk]]
      exact foldl_max_mem _ _
    | err msg =>
      exfalso
      simp [failures, List.filterMap_cons, toErr] at hfail
    | crash =>
      exact absurd (List.mem_cons_self _ _) hcrash

/-- Reporting shape of `EvaluateWithOptions` after its loop: testing
`0 < len(errors)` and the partial flag is the same as testing emptiness
first. -/
theorem evaluateWrap_eq (gatheredLen : Nat) (ev : Int) (errs : List String) :
    (if 0 < errs.length then
      if errs.length < gatheredLen then MultiResult.multiErr ev true errs
      else MultiResult.multiErr 0 false errs
    else MultiResult.ok ev) =
    (if errs = [] then MultiResult.ok ev
     else if errs.length < gatheredLen then MultiResult.multiErr ev true errs
     else MultiResult.multiErr 0 false errs) := by
  by_cases h : errs = []
  · subst h
    simp
  · rw [if_pos (List.length_pos.mpr h), if_neg h]

/-- C3: `EvaluateWithOptions` attempts every metric: provided no single
evaluation panics, it returns the reduced proposal with no error when no
metric fails, the partial reduced proposal with a multi-metric error
(`Partial = true`, all failure messages in order) when some but not all
fail, and `0` with the same error type and `Partial = false` when every
metric fails; moreover the reduced proposal bounds every successful
proposal and, with no failures on a non-empty list, is itself one of the
successful proposals (the largest). -/
theorem multiMetricErrorContract (e : Evaluator) (gatheredMetrics : List GatheredMetric)
    (currentReplicas : Int) (tolerance : ℚ)
    (hnc : EvalResult.crash ∉ singleResults e gatheredMetrics currentReplicas tolerance) :
    EvaluateWithOptions e gatheredMetrics currentReplicas tolerance =
      (if failures (singleResults e gatheredMetrics currentReplicas tolerance) = [] then
        .ok (reducedProposal (singleResults e gatheredMetrics currentReplicas tolerance))
      else if (failures (singleResults e gatheredMetrics currentReplicas tolerance)).length <
          gatheredMetrics.length then
        .multiErr (reducedProposal (singleResults e gatheredMetrics currentReplicas tolerance))
          true (failures (singleResults e gatheredMetrics currentReplicas tolerance))
      else
        .multiErr 0 false
          (failures (singleResults e gatheredMetrics currentReplicas tolerance))) ∧
    (∀ n ∈ successes (singleResults e gatheredMetrics currentReplicas tolerance),
      n ≤ reducedProposal (singleResults e gatheredMetrics currentReplicas tolerance)) ∧
    (failures (singleResults e gatheredMetrics currentReplicas tolerance) = [] →
      gatheredMetrics ≠ [] →
      reducedProposal (singleResults e gatheredMetrics currentReplicas tolerance) ∈
        successes (singleResults e gatheredMetrics currentReplicas tolerance)) := by
  refine ⟨?_, successes_le_reducedProposal _, ?_⟩
  · cases gatheredMetrics with
    | nil => simp [EvaluateWithOptions, evalLoop, singleResults, failures, reducedProposal]
    | cons g gs =>
      have hnc1 : EvaluateSingleMetricWithOptions e g currentReplicas tolerance ≠ .crash := by
        intro hc
        exact hnc (by simp [singleResults, hc])
      have hnc2 : EvalResult.crash ∉ singleResults e gs currentReplicas tolerance := by
        intro hc
        refine hnc ?_
        simp only [singleResults, List.map_cons, List.mem_cons]
        exact Or.inr (by simpa [singleResults] using hc)
      unfold EvaluateWithOptions
      rw [show (g :: gs).enum = (0, g) :: List.enumFrom 1 gs from by simp [List.enum_cons]]
      unfold evalLoop
      cases hres : EvaluateSingleMetricWithOptions e g currentReplicas tolerance with
      | crash => exact absurd hres hnc1
      | err msg =>
        dsimp only
        rw [evalLoop_enumFrom e currentReplicas tolerance gs 1 one_ne_zero 0 ([] ++ [msg]),
          if_neg hnc2]
        dsimp only
        rw [evaluateWrap_eq]
        simp [singleResults, failures, successes, reducedProposal, hres, toErr, toOk]
      | ok pe =>
        dsimp only
        rw [show (if (0:Nat) = 0 then pe else 0) = pe from rfl,
          show (if pe < pe then pe else pe) = pe from by simp]
        rw [evalLoop_enumFrom e currentReplicas tolerance gs 1 one_ne_zero pe [],
          if_neg hnc2]
        dsimp only
        rw [evaluateWrap_eq]
        simp [singleResults, failures, successes, reducedProposal, hres, toErr, toOk]
  · intro hfail hne
    refine reducedProposal_mem_successes _ ?_ hnc hfail
    simp [singleResults]
    exact hne

/-- A concrete evaluator whose External branch proposes 1 and whose Object
branch fails. -/
def exampleEvaluator : Evaluator :=
  ⟨fun _ _ _ => .ok 1, fun _ _ _ => .err "x", fun _ _ => some 2, fun _ _ _ => .ok 3, 0⟩

/-- A gathered metric routed to the External evaluator. -/
def exampleExternalMetric : GatheredMetric :=
  { Spec := { MetricType := "External" } }

/-- A gathered metric routed to the Object evaluator. -/
def exampleObjectMetric : GatheredMetric :=
  { Spec := { MetricType := "Object" } }

/-- C3 witness: one success (1) and one failure ("x") out of two metrics
yields the partial result `1` with `Partial = true` and the failure list
`["x"]`. -/
theorem multiMetricErrorContract_witness :
    EvaluateWithOptions exampleEvaluator [exampleExternalMetric, exampleObjectMetric] 5 0 =
      .multiErr 1 true ["x"] := by
  rw [(multiMetricErrorContract exampleEvaluator
    [exampleExternalMetric, exampleObjectMetric] 5 0 (by decide)).1]
  decide

/-! ### Monotonicity of the replica decision -/

/-- Go's truncating integer division is monotone in the dividend for a
positive divisor. -/
theorem tdiv_le_tdiv_of_le (a b n : Int) (hn : 0 < n) (h : a ≤ b) :
    Int.tdiv a n ≤ Int.tdiv b n := by
  rcases le_or_lt 0 a with ha | ha
  · rw [Int.tdiv_eq_ediv ha hn.le, Int.tdiv_eq_ediv (le_trans ha h) hn.le]
    exact Int.ediv_le_ediv hn h
  · rcases le_or_lt 0 b with hb | hb
    · have e : Int.tdiv a n = -(Int.tdiv (-a) n) := by
        rw [← Int.neg_tdiv, neg_neg]
      have h0 : 0 ≤ Int.tdiv (-a) n := by
        rw [Int.tdiv_eq_ediv (by omega) hn.le]
        exact Int.ediv_nonneg (by omega) hn.le
      have h2 : 0 ≤ Int.tdiv b n := by
        rw [Int.tdiv_eq_ediv hb hn.le]
        exact Int.ediv_nonneg hb hn.le
      omega
    · have ea : Int.tdiv a n = -(Int.tdiv (-a) n) := by rw [← Int.neg_tdiv, neg_neg]
      have eb : Int.tdiv b n = -(Int.tdiv (-b) n) := by rw [← Int.neg_tdiv, neg_neg]
      have hle : Int.tdiv (-b) n ≤ Int.tdiv (-a) n := by
        rw [Int.tdiv_eq_ediv (by omega) hn.le, Int.tdiv_eq_ediv (by omega) hn.le]
        exact Int.ediv_le_ediv hn (by omega)
      omega

/-- The tolerance-banded decision with `readyPodCount = currentReplicas ≥ 0`
is monotone in the usage ratio. -/
theorem toleranceBand_mono (tolerance : ℚ) (c : Int) (hc : 0 ≤ c) {q1 q2 : ℚ}
    (h : q1 ≤ q2) :
    (if |1 - q1| ≤ tolerance then c else ⌈q1 * (c : ℚ)⌉) ≤
      (if |1 - q2| ≤ tolerance then c else ⌈q2 * (c : ℚ)⌉) := by
  have hc' : (0:ℚ) ≤ (c:ℚ) := by exact_mod_cast hc
  by_cases h1 : |1 - q1| ≤ tolerance <;> by_cases h2 : |1 - q2| ≤ tolerance
  · rw [if_pos h1, if_pos h2]
  · rw [if_pos h1, if_neg h2]
    have htol : (0:ℚ) ≤ tolerance := le_trans (abs_nonneg _) h1
    have hr1 : 1 - tolerance ≤ q1 := by
      have hb := abs_le.mp h1
      linarith [hb.2]
    have hq2 : 1 ≤ q2 := by
      rcases lt_abs.mp (not_le.mp h2) with hx | hx
      · linarith
      · linarith
    calc (c : Int) = ⌈((c : Int) : ℚ)⌉ := (Int.ceil_intCast c).symm
      _ ≤ ⌈q2 * (c : ℚ)⌉ := Int.ceil_mono (le_mul_of_one_le_left hc' hq2)
  · rw [if_neg h1, if_pos h2]
    have htol : (0:ℚ) ≤ tolerance := le_trans (abs_nonneg _) h2
    have hr2 : q2 ≤ 1 + tolerance := by
      have hb := abs_le.mp h2
      linarith [hb.1]
    have hq1 : q1 ≤ 1 := by
      rcases lt_abs.mp (not_le.mp h1) with hx | hx
      · linarith
      · linarith
    calc ⌈q1 * (c : ℚ)⌉ ≤ ⌈((c : Int) : ℚ)⌉ :=
          Int.ceil_mono (by calc q1 * (c : ℚ) ≤ 1 * (c : ℚ) :=
              mul_le_mul_of_nonneg_right hq1 hc'
            _ = ((c : Int) : ℚ) := one_mul _)
      _ = c := Int.ceil_intCast c
  · rw [if_neg h1, if_neg h2]
    exact Int.ceil_mono (mul_le_mul_of_nonneg_right h hc')

/-- With no missing and no ignored pods, `GetPlainMetricReplicaCount` takes
the fast path: the tolerance band around the plain usage ratio, else the
ceiling of ratio times ready pods. -/
theorem plainFastPath_eq (r : ReplicaCalculator) (metrics : MetricsInfo)
    (currentReplicas targetUtilization readyPodCount : Int) (hne : metrics ≠ []) :
    GetPlainMetricReplicaCount r metrics currentReplicas targetUtilization
        readyPodCount [] [] =
      some (if |1 - plainUsage metrics targetUtilization| ≤ r.Tolerance then currentReplicas
            else ⌈plainUsage metrics targetUtilization * (readyPodCount : ℚ)⌉) := by
  unfold GetPlainMetricReplicaCount
  rw [getMetricUtilization_of_ne_nil _ _ hne]
  dsimp only
  rw [if_pos ⟨by simp, rfl⟩, apply_ite Option.some]

/-- C1 counterexample: on the fast path with `readyPodCount = 10` larger
than `currentReplicas = 5` and tolerance `2/10`, raising pod "a"'s value
from `70` to `90` moves the ratio from `7/10` (outside the band, so
`ceil(0.7*10) = 7`) into the band (so `5`): the returned count decreases
from 7 to 5. -/
theorem plainMonotoneCounterexample :
    GetPlainMetricReplicaCount ⟨2/10⟩ [("a", ⟨70⟩)] 5 100 10 [] [] = some 7 ∧
    GetPlainMetricReplicaCount ⟨2/10⟩ [("a", ⟨90⟩)] 5 100 10 [] [] = some 5 ∧
    (70 : Int) ≤ 90 ∧ ¬ ((7 : Int) ≤ 5) := by
  refine ⟨?_, ?_, by norm_num, by norm_num⟩
  · rw [plainFastPath_eq ⟨2/10⟩ _ 5 100 10 (by simp)]
    norm_num [plainUsage, metricsTotal, Int.tdiv, abs_of_pos, Int.ceil_eq_iff]
  · rw [plainFastPath_eq ⟨2/10⟩ _ 5 100 10 (by simp)]
    norm_num [plainUsage, metricsTotal, Int.tdiv, abs_of_pos]

/-- C1 amended: on the fast path (no missing pods, no ignored pods), with
`readyPodCount = currentReplicas ≥ 0` and a positive target, increasing a
single pod's metric value (all else fixed) never decreases the returned
replica count. -/
theorem plainMonotoneFastPath (tolerance : ℚ) (c targetUtilization v1 v2 : Int)
    (pre post : MetricsInfo) (p : String)
    (hc : 0 ≤ c) (hT : 0 < targetUtilization) (hv : v1 ≤ v2) (n1 n2 : Int)
    (h1 : GetPlainMetricReplicaCount ⟨tolerance⟩ (pre ++ (p, ⟨v1⟩) :: post) c
      targetUtilization c [] [] = some n1)
    (h2 : GetPlainMetricReplicaCount ⟨tolerance⟩ (pre ++ (p, ⟨v2⟩) :: post) c
      targetUtilization c [] [] = some n2) :
    n1 ≤ n2 := by
  have hne1 : pre ++ (p, (⟨v1⟩ : Metric)) :: post ≠ [] := by simp
  have hne2 : pre ++ (p, (⟨v2⟩ : Metric)) :: post ≠ [] := by simp
  rw [plainFastPath_eq _ _ _ _ _ hne1] at h1
  rw [plainFastPath_eq _ _ _ _ _ hne2] at h2
  have hlen : (pre ++ (p, (⟨v1⟩ : Metric)) :: post).length =
      (pre ++ (p, (⟨v2⟩ : Metric)) :: post).length := by simp
  have hsum : metricsTotal (pre ++ (p, ⟨v1⟩) :: post) ≤
      metricsTotal (pre ++ (p, ⟨v2⟩) :: post) := by
    simp only [metricsTotal, List.map_append, List.map_cons, List.sum_append,
      List.sum_cons]
    have : (⟨v1⟩ : Metric).Value ≤ (⟨v2⟩ : Metric).Value := hv
    linarith
  have hlenpos : 0 < ((pre ++ (p, (⟨v1⟩ : Metric)) :: post).length : Int) := by
    simp
    omega
  have husage : plainUsage (pre ++ (p, ⟨v1⟩) :: post) targetUtilization ≤
      plainUsage (pre ++ (p, ⟨v2⟩) :: post) targetUtilization := by
    unfold plainUsage
    rw [← hlen]
    have htd := tdiv_le_tdiv_of_le _ _ _ hlenpos hsum
    have hTpos : (0:ℚ) < (targetUtilization : ℚ) := by exact_mod_cast hT
    exact (div_le_div_iff_of_pos_right hTpos).mpr (by exact_mod_cast htd)
  have hmono := toleranceBand_mono tolerance c hc husage
  rw [Option.some_inj] at h1 h2
  dsimp only at h1 h2
  rw [h1, h2] at hmono
  exact hmono

/-- C1 witness: with `readyPodCount = currentReplicas = 5`, target `100`,
tolerance `2/10`, raising pod "a" from `70` to `90` moves the count from
`ceil(0.7*5) = 4` to `5`: it does not decrease. -/
theorem plainMonotoneFastPath_witness :
    GetPlainMetricReplicaCount ⟨2/10⟩ [("a", ⟨70⟩)] 5 100 5 [] [] = some 4 ∧
    GetPlainMetricReplicaCount ⟨2/10⟩ [("a", ⟨90⟩)] 5 100 5 [] [] = some 5 ∧
    (4 : Int) ≤ 5 := by
  have h1 : GetPlainMetricReplicaCount ⟨2/10⟩ [("a", ⟨70⟩)] 5 100 5 [] [] = some 4 := by
    rw [plainFastPath_eq ⟨2/10⟩ _ 5 100 5 (by simp)]
    norm_num [plainUsage, metricsTotal, Int.tdiv, abs_of_pos, Int.ceil_eq_iff]
  have h2 : GetPlainMetricReplicaCount ⟨2/10⟩ [("a", ⟨90⟩)] 5 100 5 [] [] = some 5 := by
    rw [plainFastPath_eq ⟨2/10⟩ _ 5 100 5 (by simp)]
    norm_num [plainUsage, metricsTotal, Int.tdiv, abs_of_pos]
  exact ⟨h1, h2, plainMonotoneFastPath (2/10) 5 100 70 90 [] [] "a" (by norm_num)
    (by norm_num) (by norm_num) 4 5 h1 h2⟩

end K8sHorizMetrics
